import Mathlib

/-
Verification development for the mefwriter repository (MEF 3.0 streaming
channel writer, write_mef_channel.c and its 2021 revision found in
src/unnamed/part_001, plus the header in src/unnamed/part_000).

Shallow embedding conventions:
* Machine integers (si8/ui8/si4/ui4) are modeled as Lean Int/Nat; all the
  quantities handled by the writer (file offsets, sample counts,
  microsecond timestamps) stay far below the 64-bit overflow boundary, and
  no claim turns on wrap-around behavior.
* C doubles (sf8) are modeled as exact rationals; the (si8) cast of a
  double is truncation toward zero (si8OfSf8 below).
* The CRC-32 collaborator is specified only through its interface
  (CRC_START_VALUE / CRC_update / CRC_calculate), so it is embedded by its
  free model: a CRC value is the list of byte chunks absorbed into it.
  Two CRC states are equal in the model exactly when the same byte chunks
  were folded into them in the same order, which is what every claim about
  CRCs in this repository talks about.
* UUID generation (generate_UUID) is a random 16-byte supply; it is
  embedded as a deterministic fresh-value supply: the channel state holds
  a counter, and each generate_UUID call hands out the counter value and
  increments it.  Freshness (a newly generated UUID differs from earlier
  ones) is the hypothesis uuid_supply-dominates-existing-UUIDs.
* The RED codec (RED_encode) is an external collaborator: the byte size of
  a compressed block, its difference-byte count and its flags byte are
  supplied by opaque functions bundled in TSConfig.  RED_find_extrema is
  specified to return the min/max of the sample vector and is embedded as
  such.  When time anonymization is active, RED_encode applies the
  recording time offset to the block header start time (see the comment in
  process_filled_block: "the offsetting occurs in the RED compression
  routine"); apply_recording_time_offset subtracts the offset.
-/

namespace MefWriter

/-- Discontinuity threshold in microseconds, from write_mef_channel.h
(src/unnamed/part_000): 100000 microseconds = 0.1 seconds. -/
def DISCONTINUITY_TIME_THRESHOLD : Int := 100000

/-- Universal header size in bytes (meflib interface constant). -/
def UNIVERSAL_HEADER_BYTES : Nat := 1024

/-- Record header size in bytes (meflib interface constant). -/
def RECORD_HEADER_BYTES : Nat := 24

/-- Record index entry size in bytes (meflib interface constant). -/
def RECORD_INDEX_BYTES : Nat := 24

/-- C cast (si8) applied to a double value: truncation toward zero,
modeled on exact rationals. -/
def si8OfSf8 (q : ℚ) : Int := if 0 ≤ q then ⌊q⌋ else ⌈q⌉

/-! ## Annotation writer (write_annotation, both source revisions)

The record header and record index structs are written with fwrite; their
on-disk byte layout belongs to the meflib collaborator, so the embedding
keeps them as structured values.  A `Chunk` is one contiguous byte region
handed to fwrite / CRC_update. -/

/-- The fields of a RECORD_HEADER that follow the record_CRC field
(the region hashed by CRC_calculate((ui1*)new_header + CRC_BYTES, ...)). -/
structure RecordHeaderTail where
  typeString : String
  versionMajor : Nat
  versionMinor : Nat
  encryption : Int
  bytes : Nat
  time : Int
deriving DecidableEq, Repr

/-- Byte image of the MEFREC_Seiz_1_0 struct as populated by the 2020
revision of write_annotation (it builds the struct itself from its
arguments). -/
structure SeizBodyC where
  earliestOnset : Int
  latestOffset : Int
  duration : Int
  numberOfChannels : Int
  onsetCode : Int
  text : List Nat
deriving DecidableEq, Repr

/-- A byte region absorbed into a record_CRC. -/
inductive RChunk where
  | hdrTail (t : RecordHeaderTail)
  | raw (bs : List Nat)
  | seiz (b : SeizBodyC)
deriving DecidableEq, Repr

/-- A RECORD_INDEX entry as populated by write_annotation. -/
structure RecordIndexEntry where
  typeString : String
  versionMajor : Nat
  versionMinor : Nat
  encryption : Int
  time : Int
  fileOffset : Nat
deriving DecidableEq, Repr

/-- A byte region written to a record file body / absorbed into a body
CRC.  A record header chunk carries its record_CRC value (the header is
written and hashed after that field was filled in). -/
inductive Chunk where
  | recHeader (t : RecordHeaderTail) (recCRC : List RChunk)
  | raw (bs : List Nat)
  | recIndex (i : RecordIndexEntry)
  | seiz (b : SeizBodyC)
deriving DecidableEq, Repr

/-- Free model of a CRC-32 accumulator: the list of chunks absorbed. -/
abbrev Crc := List Chunk

/-- ASCII tilde, the pad character of pad_bytes_string
("~~~~~~~~~~~~~~~", 15 tildes). -/
def PAD_CHAR : Nat := 126

/-- Pad computation from write_annotation:
pad_bytes = 16 - (bytes % 16); if (pad_bytes == 16) pad_bytes = 0. -/
def pad_bytes (n : Nat) : Nat :=
  if 16 - n % 16 = 16 then 0 else 16 - n % 16

/-- Body length (the pre-pad value of new_header->bytes) per record kind,
from the 2021 revision of write_annotation.  For the three fixed-layout
kinds the argument is the byte image of the corresponding MEFREC struct
(whose length is the MEFREC_*_BYTES constant); for Note it is the text
without its null terminator (strlen), so strlen + 1 bytes are written. -/
def annBodyLen (type : String) (body : List Nat) : Nat :=
  if type = "Note" then body.length + 1
  else if type = "Seiz" then body.length
  else if type = "Curs" then body.length
  else if type = "Epoc" then body.length
  else 0

/-- new_header->bytes after the pad was added (bytes += pad_bytes). -/
def annHeaderBytes (type : String) (body : List Nat) : Nat :=
  annBodyLen type body + pad_bytes (annBodyLen type body)

/-- The body chunks written to .rdat after the record header, per kind
(Note writes the text plus its null terminator; the fixed kinds write the
struct image; an unrecognized kind writes nothing). -/
def annBodyChunks (type : String) (body : List Nat) : List Chunk :=
  if type = "Note" then [Chunk.raw (body ++ [0])]
  else if type = "Seiz" then [Chunk.raw body]
  else if type = "Curs" then [Chunk.raw body]
  else if type = "Epoc" then [Chunk.raw body]
  else []

/-- The chunks absorbed into record_CRC inside the per-kind branches
(CRC_calculate over the header after its CRC field, then CRC_update over
the body).  For an unrecognized kind no branch runs and record_CRC keeps
its calloc value, modeled as the empty absorption list. -/
def annRecCRCBase (type : String) (tail : RecordHeaderTail) (body : List Nat) :
    List RChunk :=
  if type = "Note" then [RChunk.hdrTail tail, RChunk.raw (body ++ [0])]
  else if type = "Seiz" then [RChunk.hdrTail tail, RChunk.raw body]
  else if type = "Curs" then [RChunk.hdrTail tail, RChunk.raw body]
  else if type = "Epoc" then [RChunk.hdrTail tail, RChunk.raw body]
  else []

/-- Sentinel for universal_header->maximum_entry_size (meflib interface
constant UNIVERSAL_HEADER_MAXIMUM_ENTRY_SIZE_NO_ENTRY). -/
def UH_MAX_ENTRY_SIZE_NO_ENTRY : Int := -1

/-- State of the annotation writer: the two open record files and the
universal-header bookkeeping that write_annotation maintains.  rdatBody /
ridxBody are the byte regions appended after each file's universal
header. -/
structure AnnState where
  rdatFileOffset : Nat
  ridxFileOffset : Nat
  rdatBody : List Chunk
  ridxBody : List Chunk
  rdatBodyCRC : Crc
  ridxBodyCRC : Crc
  rdatNumberOfEntries : Nat
  ridxNumberOfEntries : Nat
  rdatStartTime : Option Int
  ridxStartTime : Option Int
  rdatEndTime : Int
  ridxEndTime : Int
  maximumEntrySize : Int
deriving DecidableEq, Repr

/-- write_annotation from the 2021 revision (src/unnamed/part_001,
lines 1459-1792).  rtoApply models recording_time_offset_mode having
RTO_APPLY or RTO_APPLY_ON_OUTPUT set, rto the session recording time
offset (already generated; generate_recording_time_offset only runs once
per session and merely fills the global slot).  `record` is the void*
argument: none models a NULL pointer.  The NULL checks on the two file
processing structs are not modeled (an AnnState always has its two
files), and the single maximumEntrySize field stands for the rdat and
ridx header fields, which the source always checks and assigns
together.  The guard on line 1487 is translated exactly: it demands that
the type string equal all four kind strings at once. -/
def writeAnn (rtoApply : Bool) (rto : Int) (st : AnnState)
    (unixTimestamp : Int) (type : String) (record : Option (List Nat)) :
    AnnState :=
  if type = "Siez" ∧ type = "Note" ∧ type = "Curs" ∧ type = "Epoc" then st
  else
    match record with
    | none => st
    | some body =>
      let bodyLen := annBodyLen type body
      let pad := pad_bytes bodyLen
      let time0 := if rtoApply then unixTimestamp - rto else unixTimestamp
      let tail : RecordHeaderTail :=
        { typeString := type, versionMajor := 1, versionMinor := 0,
          encryption := 0, bytes := annHeaderBytes type body, time := time0 }
      let idx : RecordIndexEntry :=
        { typeString := type, versionMajor := 1, versionMinor := 0,
          encryption := 0, time := time0, fileOffset := st.rdatFileOffset }
      let bodyChunks := annBodyChunks type body
      let bodyByteLen := (annBodyChunks type body).foldl
        (fun a c => a + match c with
                        | Chunk.raw bs => bs.length
                        | _ => 0) 0
      let maxEntry : Int :=
        (if type = "Note" ∨ type = "Seiz" ∨ type = "Curs" ∨ type = "Epoc"
         then (bodyLen + RECORD_HEADER_BYTES : Nat) else 0) + (pad : Nat)
      let padChunks : List Chunk :=
        if 0 < pad then [Chunk.raw (List.replicate pad PAD_CHAR)] else []
      let recCRC : List RChunk :=
        annRecCRCBase type tail body ++
          (if 0 < pad then [RChunk.raw (List.replicate pad PAD_CHAR)] else [])
      let written : List Chunk := [Chunk.recHeader tail recCRC] ++ bodyChunks ++ padChunks
      { rdatFileOffset := st.rdatFileOffset + RECORD_HEADER_BYTES + bodyByteLen + pad
        ridxFileOffset := st.ridxFileOffset + RECORD_INDEX_BYTES
        rdatBody := st.rdatBody ++ written
        ridxBody := st.ridxBody ++ [Chunk.recIndex idx]
        rdatBodyCRC := st.rdatBodyCRC ++ written
        ridxBodyCRC := st.ridxBodyCRC ++ [Chunk.recIndex idx]
        rdatNumberOfEntries := st.rdatNumberOfEntries + 1
        ridxNumberOfEntries := st.ridxNumberOfEntries + 1
        rdatStartTime := if st.rdatStartTime = none then some time0 else st.rdatStartTime
        ridxStartTime := if st.rdatStartTime = none then some time0 else st.ridxStartTime
        rdatEndTime := time0
        ridxEndTime := time0
        maximumEntrySize :=
          if st.maximumEntrySize < maxEntry ∨
             st.maximumEntrySize = UH_MAX_ENTRY_SIZE_NO_ENTRY
          then maxEntry else st.maximumEntrySize }

/-- write_annotation from the 2020 revision (src/write_mef_channel.c,
lines 1281-1504).  Differences from the 2021 revision that this embedding
preserves: only Note and Seiz kinds are handled; the guard compares
against "Siez" and "Note" only; the Seiz body struct is built inside the
function from (annotation, unixTimestamp, code); and the .rdat body CRC
is updated only with the record header (plus the Seiz struct for Seiz
records) - the Note text and the pad bytes are written to the file but
never folded into the .rdat body CRC (lines 1469-1474).
seizStructBytes is sizeof(MEFREC_Seiz_1_0), a meflib interface value. -/
def writeAnnC (seizStructBytes : Nat) (rtoApply : Bool) (rto : Int)
    (st : AnnState) (unixTimestamp : Int) (type : String) (code : Int)
    (text : List Nat) : AnnState :=
  if type = "Siez" ∧ type = "Note" then st
  else
    let bodyLen : Nat :=
      if type = "Seiz" then seizStructBytes
      else if type = "Note" then text.length + 1
      else 0
    let pad := pad_bytes bodyLen
    let time0 := if rtoApply then unixTimestamp - rto else unixTimestamp
    let tail : RecordHeaderTail :=
      { typeString := type, versionMajor := 1, versionMinor := 0,
        encryption := 0, bytes := bodyLen + pad, time := time0 }
    let idx : RecordIndexEntry :=
      { typeString := type, versionMajor := 1, versionMinor := 0,
        encryption := 0, time := time0, fileOffset := st.rdatFileOffset }
    let seizBody : SeizBodyC :=
      { earliestOnset := unixTimestamp, latestOffset := unixTimestamp,
        duration := 0, numberOfChannels := 4, onsetCode := code,
        text := text }
    let bodyChunks : List Chunk :=
      if type = "Seiz" then [Chunk.seiz seizBody]
      else if type = "Note" then [Chunk.raw (text ++ [0])]
      else []
    let maxEntry : Int :=
      (if type = "Seiz" then seizStructBytes + RECORD_HEADER_BYTES
       else if type = "Note" then text.length + 1 + RECORD_HEADER_BYTES
       else 0) + (pad : Nat)
    let recCRC : List RChunk :=
      (if type = "Seiz" then [RChunk.hdrTail tail, RChunk.seiz seizBody]
       else if type = "Note" then [RChunk.hdrTail tail, RChunk.raw (text ++ [0])]
       else []) ++
        (if 0 < pad then [RChunk.raw (List.replicate pad PAD_CHAR)] else [])
    let padChunks : List Chunk :=
      if 0 < pad then [Chunk.raw (List.replicate pad PAD_CHAR)] else []
    let written : List Chunk := [Chunk.recHeader tail recCRC] ++ bodyChunks ++ padChunks
    { rdatFileOffset := st.rdatFileOffset + RECORD_HEADER_BYTES + bodyLen + pad
      ridxFileOffset := st.ridxFileOffset + RECORD_INDEX_BYTES
      rdatBody := st.rdatBody ++ written
      ridxBody := st.ridxBody ++ [Chunk.recIndex idx]
      rdatBodyCRC := st.rdatBodyCRC ++ [Chunk.recHeader tail recCRC] ++
        (if type = "Seiz" then [Chunk.seiz seizBody] else [])
      ridxBodyCRC := st.ridxBodyCRC ++ [Chunk.recIndex idx]
      rdatNumberOfEntries := st.rdatNumberOfEntries + 1
      ridxNumberOfEntries := st.ridxNumberOfEntries + 1
      rdatStartTime := if st.rdatStartTime = none then some time0 else st.rdatStartTime
      ridxStartTime := if st.rdatStartTime = none then some time0 else st.ridxStartTime
      rdatEndTime := time0
      ridxEndTime := time0
      maximumEntrySize :=
        if st.maximumEntrySize < maxEntry ∨
           st.maximumEntrySize = UH_MAX_ENTRY_SIZE_NO_ENTRY
        then maxEntry else st.maximumEntrySize }

/-! ## Manifest updater (update_mefd_file, src/unnamed/part_001 lines
579-670)

The .mefd file is a universal header followed by fixed-size
(MEF_FULL_FILE_NAME_BYTES) zero-padded channel-name records; each record
is modeled as the name string it holds.  The header CRC is
CRC_calculate over the header content after the CRC field; its free model
here is a copy of the header fields it was computed from. -/

/-- Universal-header fields of the .mefd manifest that update_mefd_file
reads or writes. -/
structure MefdHeader where
  numberOfEntries : Nat
  bodyCRC : List String
  sessionName : String
  anonymizedName : String
  segmentNumber : Int
  maximumEntrySize : Nat
deriving DecidableEq, Repr

/-- The .mefd manifest file: header, header CRC (free model: the header
value it was computed over), and the channel-name records of the body. -/
structure MefdFile where
  header : MefdHeader
  headerCRC : MefdHeader
  entries : List String
deriving DecidableEq, Repr

/-- TIME_SERIES_CHANNEL_DIRECTORY_TYPE_STRING (meflib interface
constant; see the "%s.timd" paths in append_mef_channel_data). -/
def TIMD_SUFFIX : String := "timd"

/-- update_mefd_file.  `existing` is none when access() reports that the
.mefd file does not exist yet.  The scan loop reads number_of_entries
records and returns without touching the file on a byte-exact match. -/
def update_mefd_file (existing : Option MefdFile)
    (sessionName chanName anonName : String) : MefdFile :=
  let entry := chanName ++ "." ++ TIMD_SUFFIX
  match existing with
  | none =>
    let hdr : MefdHeader :=
      { numberOfEntries := 1, bodyCRC := [entry],
        sessionName := sessionName, anonymizedName := anonName,
        segmentNumber := -3, maximumEntrySize := 1024 }
    { header := hdr, headerCRC := hdr, entries := [entry] }
  | some f =>
    if entry ∈ f.entries.take f.header.numberOfEntries then f
    else
      let hdr : MefdHeader :=
        { f.header with numberOfEntries := f.header.numberOfEntries + 1,
                        bodyCRC := f.header.bodyCRC ++ [entry] }
      { header := hdr, headerCRC := hdr, entries := f.entries ++ [entry] }

/-! ## Time-series channel writer state machine

Embedding of the channel writer of src/unnamed/part_001 (the 2021
revision): write_mef_channel_data, process_filled_block,
check_for_new_segment and flush_mef_channel.  The 2020 revision in
src/write_mef_channel.c differs in exactly two places that matter to the
claims, and those differences are embedded separately below
(endTimeCalcC, rolloverSegmentC).

Fields that no claim touches are not carried in the state: the native
extrema of metadata section 2 (floating point with NaN sentinels) and
the body/header CRC accumulators of the three time-series files (no
claim mentions them; the annotation-file CRCs, which claims C4 and C9 do
mention, are modeled in AnnState).  Everything else
process_filled_block writes is carried. -/

/-- One index entry as assembled into temp_time_series_index
(process_filled_block; 8+8+8+4+4+4+4+4+1 packed bytes plus reserved
regions). -/
structure IndexEntry where
  fileOffset : Nat
  startTime : Int
  startSample : Int
  numberOfSamples : Nat
  blockBytes : Nat
  maximumSampleValue : Int
  minimumSampleValue : Int
  flags : Nat
deriving DecidableEq, Repr

/-- One RED-compressed block as appended to the segment data file. -/
structure BlockRec where
  samples : List Int
  discontinuity : Bool
  startTime : Int
  blockBytes : Nat
deriving DecidableEq, Repr

/-- The three files of a finished segment, archived at rollover. -/
structure SegmentRec where
  levelUUID : Nat
  dataFileUUID : Nat
  indsFileUUID : Nat
  metaFileUUID : Nat
  entries : List IndexEntry
  blocks : List BlockRec
deriving DecidableEq, Repr

/-- Per-channel configuration plus the external collaborator interfaces:
the RED codec size/flag outputs and the global recording-time-offset
state (MEF_globals).  indexEntryBytes is
45 + RED_BLOCK_PROTECTED_REGION_BYTES + RED_BLOCK_DISCRETIONARY_REGION_BYTES. -/
structure TSConfig where
  blockInterval : Int
  numSecsPerSegment : Nat
  rtoApply : Bool
  recordingTimeOffset : Int
  bitShiftFlag : Bool
  indexEntryBytes : Nat
  blockBytesFn : List Int → Bool → Nat
  diffBytesFn : List Int → Nat
  flagsFn : Bool → Nat

/-- The CHANNEL_STATE struct (write_mef_channel.h) together with the
universal-header and metadata fields the writer maintains in the three
file processing structs, and the on-disk contents of the current
segment.  buffer is the region between raw_data_ptr_start and
raw_data_ptr_current. -/
structure ChannelState where
  buffer : List Int
  block_len : Nat
  block_hdr_time : Int
  block_boundary : Int
  last_chan_timestamp : Int
  discontinuity_flag : Bool
  sampling_frequency : ℚ
  start_sample : Int
  data_file_offset : Nat
  inds_file_offset : Nat
  number_of_index_entries : Nat
  number_of_samples_cs : Nat
  next_segment_start_time : Int
  md2_start_sample : Int
  md2_number_of_samples : Nat
  md2_number_of_blocks : Nat
  md2_number_of_discontinuities : Nat
  md2_maximum_block_bytes : Nat
  md2_maximum_block_samples : Nat
  md2_maximum_difference_bytes : Nat
  md2_maximum_contiguous_blocks : Nat
  md2_maximum_contiguous_samples : Nat
  md2_maximum_contiguous_block_bytes : Nat
  md2_recording_duration : Option Int
  discont_contiguous_blocks : Nat
  discont_contiguous_samples : Nat
  discont_contiguous_bytes : Nat
  meta_start_time : Option Int
  data_start_time : Option Int
  inds_start_time : Option Int
  meta_end_time : Option Int
  data_end_time : Option Int
  inds_end_time : Option Int
  data_number_of_entries : Nat
  inds_number_of_entries : Nat
  data_maximum_entry_size : Nat
  segment_number : Nat
  uuid_supply : Nat
  data_level_UUID : Nat
  data_file_UUID : Nat
  inds_level_UUID : Nat
  inds_file_UUID : Nat
  meta_level_UUID : Nat
  meta_file_UUID : Nat
  index_entries : List IndexEntry
  data_blocks : List BlockRec
  closed_segments : List SegmentRec
deriving DecidableEq, Repr

/-- The optional bit shift of process_filled_block: divide by 4 with
half-away-from-zero rounding, truncating toward zero as the (si4) cast
does. -/
def bit_shift_sample (x : Int) : Int :=
  if 0 ≤ x then Int.tdiv (x + 2) 4 else Int.tdiv (x - 2) 4

/-- RED_find_extrema maximum over the sample vector. -/
def listMax (l : List Int) : Int := l.foldl max (l.headD 0)

/-- RED_find_extrema minimum over the sample vector. -/
def listMin (l : List Int) : Int := l.foldl min (l.headD 0)

/-- The end-time computation of process_filled_block in the 2021
revision (src/unnamed/part_001 line 847):
block_hdr_time + (si8)((((sf8)N) / sampling_frequency) * 1e6 + 0.5). -/
def endTimeCalc (block_hdr_time : Int) (n : Nat) (F : ℚ) : Int :=
  block_hdr_time + si8OfSf8 (((n : ℚ) / F) * 1000000 + 1 / 2)

/-- The end-time computation of process_filled_block in the 2020
revision (src/write_mef_channel.c line 688):
block_hdr_time + (si8)((((sf8)N + 1) / sampling_frequency) * 1e6 + 0.5). -/
def endTimeCalcC (block_hdr_time : Int) (n : Nat) (F : ℚ) : Int :=
  block_hdr_time + si8OfSf8 ((((n : ℚ) + 1) / F) * 1000000 + 1 / 2)

/-- The end-time value the specification describes (claim C3):
block_hdr_time plus the rounded value of (N / sampling_frequency) * 1e6
microseconds. -/
def endTimeSpec (block_hdr_time : Int) (n : Nat) (F : ℚ) : Int :=
  block_hdr_time + round (((n : ℚ) / F) * 1000000)

/-- The segment-rollover body of check_for_new_segment in the 2021
revision (src/unnamed/part_001 lines 1138-1241): everything after the
two early-return guards.  generate_UUID order follows the source: data
level UUID, data file UUID, index file UUID, metadata file UUID; the
index and metadata headers copy the data file's (new) level UUID. -/
def rolloverSegment (cfg : TSConfig) (s : ChannelState) (start_time : Int) :
    ChannelState :=
  let seg : SegmentRec :=
    { levelUUID := s.data_level_UUID, dataFileUUID := s.data_file_UUID,
      indsFileUUID := s.inds_file_UUID, metaFileUUID := s.meta_file_UUID,
      entries := s.index_entries, blocks := s.data_blocks }
  { s with
    closed_segments := s.closed_segments ++ [seg]
    segment_number := s.segment_number + 1
    data_start_time := some start_time
    data_end_time := some start_time
    data_number_of_entries := 0
    data_maximum_entry_size := 0
    data_level_UUID := s.uuid_supply
    data_file_UUID := s.uuid_supply + 1
    data_file_offset := UNIVERSAL_HEADER_BYTES
    inds_start_time := some start_time
    inds_end_time := some start_time
    inds_number_of_entries := 0
    inds_level_UUID := s.uuid_supply
    inds_file_UUID := s.uuid_supply + 2
    inds_file_offset := UNIVERSAL_HEADER_BYTES
    meta_start_time := some start_time
    meta_end_time := some start_time
    meta_level_UUID := s.uuid_supply
    meta_file_UUID := s.uuid_supply + 3
    uuid_supply := s.uuid_supply + 4
    md2_recording_duration := none
    md2_start_sample := s.md2_start_sample + s.md2_number_of_samples
    md2_number_of_samples := 0
    md2_number_of_blocks := 0
    md2_maximum_block_bytes := 0
    md2_maximum_block_samples := 0
    md2_maximum_difference_bytes := 0
    md2_number_of_discontinuities := 0
    md2_maximum_contiguous_blocks := 0
    md2_maximum_contiguous_block_bytes := 0
    md2_maximum_contiguous_samples := 0
    next_segment_start_time :=
      if cfg.rtoApply then
        s.next_segment_start_time - (cfg.numSecsPerSegment : Int) * 1000000
      else
        s.next_segment_start_time + (cfg.numSecsPerSegment : Int) * 1000000
    discont_contiguous_blocks := 0
    discont_contiguous_samples := 0
    discont_contiguous_bytes := 0
    number_of_index_entries := 0
    number_of_samples_cs := 0
    start_sample := 0
    index_entries := []
    data_blocks := [] }

/-- The segment-rollover body of check_for_new_segment in the 2020
revision (src/write_mef_channel.c lines 996-1080).  Identical to the
2021 revision except that the channel state's start_sample is NOT reset
to zero (the 2021 revision added that reset on line 1239). -/
def rolloverSegmentC (cfg : TSConfig) (s : ChannelState) (start_time : Int) :
    ChannelState :=
  let seg : SegmentRec :=
    { levelUUID := s.data_level_UUID, dataFileUUID := s.data_file_UUID,
      indsFileUUID := s.inds_file_UUID, metaFileUUID := s.meta_file_UUID,
      entries := s.index_entries, blocks := s.data_blocks }
  { s with
    closed_segments := s.closed_segments ++ [seg]
    segment_number := s.segment_number + 1
    data_start_time := some start_time
    data_end_time := some start_time
    data_number_of_entries := 0
    data_maximum_entry_size := 0
    data_level_UUID := s.uuid_supply
    data_file_UUID := s.uuid_supply + 1
    data_file_offset := UNIVERSAL_HEADER_BYTES
    inds_start_time := some start_time
    inds_end_time := some start_time
    inds_number_of_entries := 0
    inds_level_UUID := s.uuid_supply
    inds_file_UUID := s.uuid_supply + 2
    inds_file_offset := UNIVERSAL_HEADER_BYTES
    meta_start_time := some start_time
    meta_end_time := some start_time
    meta_level_UUID := s.uuid_supply
    meta_file_UUID := s.uuid_supply + 3
    uuid_supply := s.uuid_supply + 4
    md2_recording_duration := none
    md2_start_sample := s.md2_start_sample + s.md2_number_of_samples
    md2_number_of_samples := 0
    md2_number_of_blocks := 0
    md2_maximum_block_bytes := 0
    md2_maximum_block_samples := 0
    md2_maximum_difference_bytes := 0
    md2_number_of_discontinuities := 0
    md2_maximum_contiguous_blocks := 0
    md2_maximum_contiguous_block_bytes := 0
    md2_maximum_contiguous_samples := 0
    next_segment_start_time :=
      if cfg.rtoApply then
        s.next_segment_start_time - (cfg.numSecsPerSegment : Int) * 1000000
      else
        s.next_segment_start_time + (cfg.numSecsPerSegment : Int) * 1000000
    discont_contiguous_blocks := 0
    discont_contiguous_samples := 0
    discont_contiguous_bytes := 0
    number_of_index_entries := 0
    number_of_samples_cs := 0
    index_entries := []
    data_blocks := [] }

/-- check_for_new_segment (2021 revision): the two early-return guards
followed by the rollover body.  With offset times (rtoApply) the segment
boundary check has the opposite sign. -/
def checkForNewSegment (cfg : TSConfig) (s : ChannelState)
    (start_time : Int) : ChannelState :=
  if s.next_segment_start_time = 0 then s
  else if cfg.rtoApply then
    if s.next_segment_start_time < start_time then s
    else rolloverSegment cfg s start_time
  else
    if start_time < s.next_segment_start_time then s
    else rolloverSegment cfg s start_time

/-- check_for_new_segment (2020 revision, src/write_mef_channel.c
lines 951-1082): same guards, rollover body without the start_sample
reset. -/
def checkForNewSegmentC (cfg : TSConfig) (s : ChannelState)
    (start_time : Int) : ChannelState :=
  if s.next_segment_start_time = 0 then s
  else if cfg.rtoApply then
    if s.next_segment_start_time < start_time then s
    else rolloverSegmentC cfg s start_time
  else
    if start_time < s.next_segment_start_time then s
    else rolloverSegmentC cfg s start_time

/-- process_filled_block (2021 revision, src/unnamed/part_001 lines
672-939).  Arguments mirror the C signature: the raw buffer slice, its
entry count, block_len, the discontinuity flag and the block header
time.  The recording-time-offset generation (process_filled_block lines
720-731) only fills the process-global offset slot once per session; the
embedding takes that offset as already present in cfg.  The
floating-point native extrema bookkeeping (lines 804-822) is not carried
in the state, and update_metadata (called on line 936) only rewrites
headers on disk from the in-memory values modeled here. -/
def process_filled_block (cfg : TSConfig) (s : ChannelState)
    (raw_data : List Int) (num_entries : Nat) (block_len : Nat)
    (discontinuity_flag : Bool) (block_hdr_time : Int) : ChannelState :=
  if num_entries = 0 then s
  else if block_len = 0 then s
  else
    let data := if cfg.bitShiftFlag then raw_data.map bit_shift_sample else raw_data
    let start_time :=
      if cfg.rtoApply then block_hdr_time - cfg.recordingTimeOffset
      else block_hdr_time
    let block_bytes := cfg.blockBytesFn data discontinuity_flag
    let s1 :=
      if 0 < cfg.numSecsPerSegment then checkForNewSegment cfg s start_time
      else s
    let blk : BlockRec :=
      { samples := data, discontinuity := discontinuity_flag,
        startTime := start_time, blockBytes := block_bytes }
    let s2 := { s1 with data_blocks := s1.data_blocks ++ [blk] }
    let s3 :=
      if s2.meta_start_time = none then
        { s2 with
          meta_start_time := some start_time
          data_start_time := some start_time
          inds_start_time := some start_time
          next_segment_start_time :=
            if cfg.rtoApply then
              start_time - (cfg.numSecsPerSegment : Int) * 1000000
            else
              start_time + (cfg.numSecsPerSegment : Int) * 1000000 }
      else s2
    let s4 := { s3 with
      md2_maximum_block_bytes := max s3.md2_maximum_block_bytes block_bytes
      md2_maximum_difference_bytes :=
        max s3.md2_maximum_difference_bytes (cfg.diffBytesFn data)
      md2_maximum_block_samples := max s3.md2_maximum_block_samples num_entries
      md2_number_of_samples := s3.md2_number_of_samples + num_entries
      md2_number_of_blocks := s3.md2_number_of_blocks + 1
      md2_number_of_discontinuities :=
        if discontinuity_flag then s3.md2_number_of_discontinuities + 1
        else s3.md2_number_of_discontinuities }
    let end_base := endTimeCalc block_hdr_time num_entries s4.sampling_frequency
    let end_time :=
      if cfg.rtoApply then end_base - cfg.recordingTimeOffset else end_base
    let dur := end_time - (s4.meta_start_time.getD 0)
    let s5 := { s4 with
      meta_end_time := some end_time
      data_end_time := some end_time
      inds_end_time := some end_time
      md2_recording_duration := some (if dur < 0 then -dur else dur)
      data_number_of_entries := s4.data_number_of_entries + 1
      inds_number_of_entries := s4.inds_number_of_entries + 1
      data_maximum_entry_size := max s4.data_maximum_entry_size num_entries }
    let e : IndexEntry :=
      { fileOffset := s5.data_file_offset, startTime := start_time,
        startSample := s5.start_sample, numberOfSamples := num_entries,
        blockBytes := block_bytes, maximumSampleValue := listMax data,
        minimumSampleValue := listMin data,
        flags := cfg.flagsFn discontinuity_flag }
    let s6 := { s5 with
      index_entries := s5.index_entries ++ [e]
      inds_file_offset := s5.inds_file_offset + cfg.indexEntryBytes }
    let s7 :=
      if discontinuity_flag then
        { s6 with
          discont_contiguous_blocks := 1
          discont_contiguous_samples := num_entries
          discont_contiguous_bytes := block_bytes }
      else
        { s6 with
          discont_contiguous_blocks := s6.discont_contiguous_blocks + 1
          discont_contiguous_samples := s6.discont_contiguous_samples + num_entries
          discont_contiguous_bytes := s6.discont_contiguous_bytes + block_bytes }
    let s8 := { s7 with
      md2_maximum_contiguous_blocks :=
        max s7.md2_maximum_contiguous_blocks s7.discont_contiguous_blocks
      md2_maximum_contiguous_samples :=
        max s7.md2_maximum_contiguous_samples s7.discont_contiguous_samples
      md2_maximum_contiguous_block_bytes :=
        max s7.md2_maximum_contiguous_block_bytes s7.discont_contiguous_bytes }
    { s8 with
      data_file_offset := s8.data_file_offset + block_bytes
      start_sample := s8.start_sample + num_entries
      number_of_index_entries := s8.number_of_index_entries + 1
      number_of_samples_cs := s8.number_of_samples_cs + num_entries }

/-- First-block (re-)initialization at the top of the per-sample loop of
write_mef_channel_data: if block_hdr_time is 0, seed both block_hdr_time
and block_boundary from the current packet time. -/
def write_step_init (s : ChannelState) (t : Int) : ChannelState :=
  if s.block_hdr_time = 0 then
    { s with block_hdr_time := t, block_boundary := t }
  else s

/-- The discontinuity condition of the per-sample loop:
abs(packet_time - last_chan_timestamp) >= DISCONTINUITY_TIME_THRESHOLD.
The source passes the si8 difference to abs(); the embedding takes the
exact mathematical absolute value of that 64-bit difference, which is
the intended comparison for all timestamp ranges the writer handles. -/
abbrev disc_trigger (s : ChannelState) (t : Int) : Prop :=
  DISCONTINUITY_TIME_THRESHOLD ≤ |t - s.last_chan_timestamp|

/-- The block-schedule condition of the per-sample loop:
(packet_time - block_boundary) >= block_interval. -/
abbrev block_trigger (cfg : TSConfig) (s : ChannelState) (t : Int) : Prop :=
  cfg.blockInterval ≤ t - s.block_boundary

/-- One iteration of the per-sample loop of write_mef_channel_data
(src/unnamed/part_001 lines 997-1045; identical in
src/write_mef_channel.c lines 838-886).  The loop works on local copies
of block_hdr_time, block_boundary, last_chan_timestamp and
discontinuity_flag; process_filled_block never writes those fields, so
threading them through the state is equivalent to the C locals. -/
def write_step (cfg : TSConfig) (s : ChannelState) (t x : Int) :
    ChannelState :=
  let s1 := write_step_init s t
  if disc_trigger s1 t ∨ block_trigger cfg s1 t then
    let s2 :=
      if 0 < s1.buffer.length then
        process_filled_block cfg s1 s1.buffer s1.buffer.length s1.block_len
          s1.discontinuity_flag s1.block_hdr_time
      else s1
    let s3 :=
      if disc_trigger s1 t then
        { s2 with discontinuity_flag := true, block_boundary := t }
      else
        { s2 with discontinuity_flag := false,
                  block_boundary := s1.block_boundary + cfg.blockInterval }
    { s3 with block_hdr_time := t, buffer := [x], last_chan_timestamp := t }
  else
    { s1 with buffer := s1.buffer ++ [x], last_chan_timestamp := t }

/-- write_mef_channel_data: store the sampling frequency, compute
block_len = ceil(secs_per_block * sampling_frequency), then run the
per-sample loop over the packet list. -/
def write_mef_channel_data (cfg : TSConfig) (s : ChannelState)
    (packets : List (Int × Int)) (secs_per_block F : ℚ) : ChannelState :=
  let s0 := { s with sampling_frequency := F,
                     block_len := (⌈secs_per_block * F⌉).toNat }
  packets.foldl (fun st p => write_step cfg st p.1 p.2) s0

/-- flush_mef_channel (src/unnamed/part_001 lines 1061-1108): no-op when
no data was ever given (block_len == 0); otherwise emit the buffered
samples (if any), mark the next block discontinuous, and zero
block_boundary and block_hdr_time so the next write re-seeds them. -/
def flush_mef_channel (cfg : TSConfig) (s : ChannelState) : ChannelState :=
  if s.block_len = 0 then s
  else
    let s1 :=
      if 0 < s.buffer.length then
        process_filled_block cfg s s.buffer s.buffer.length s.block_len
          s.discontinuity_flag s.block_hdr_time
      else s
    { s1 with discontinuity_flag := true, block_boundary := 0,
              block_hdr_time := 0, buffer := [] }

/-- Total number of RED blocks this channel has emitted to disk, across
the current segment and all archived segments. -/
def total_blocks (s : ChannelState) : Nat :=
  (s.closed_segments.map (fun g => g.blocks.length)).sum + s.data_blocks.length

/-- An externally driven channel operation (between initialize and
close). -/
inductive ChannelOp where
  | write (packets : List (Int × Int)) (secsPerBlock : ℚ) (F : ℚ)
  | flush
deriving Repr

/-- Run a sequence of channel operations. -/
def runOps (cfg : TSConfig) (s : ChannelState) : List ChannelOp → ChannelState
  | [] => s
  | ChannelOp.write ps sb F :: rest =>
      runOps cfg (write_mef_channel_data cfg s ps sb F) rest
  | ChannelOp.flush :: rest => runOps cfg (flush_mef_channel cfg s) rest

/-- The index entries of a segment chain correctly from accumulator a:
each entry's startSample is the running total and the total advances by
that entry's numberOfSamples. -/
def chainFromB (a : Int) : List IndexEntry → Bool
  | [] => true
  | e :: rest => e.startSample = a && chainFromB (a + e.numberOfSamples) rest

/-- End of the chain: the accumulator after all entries. -/
def segEnd (a : Int) (l : List IndexEntry) : Int :=
  l.foldl (fun acc e => acc + e.numberOfSamples) a

/-- The start_sample bookkeeping invariant of the channel writer: the
current segment's index entries chain from 0, the channel state's
start_sample is the chain's running total, and every archived segment's
entries chain from 0. -/
def ChainInv (s : ChannelState) : Prop :=
  chainFromB 0 s.index_entries = true ∧
  s.start_sample = segEnd 0 s.index_entries ∧
  ∀ g ∈ s.closed_segments, chainFromB 0 g.entries = true

/-! ## Concrete fixtures for witnesses and counterexamples -/

/-- A fresh annotation state as create_or_append_annotations leaves it for
a brand-new session: both files hold just their universal header. -/
def annSt0 : AnnState :=
  { rdatFileOffset := UNIVERSAL_HEADER_BYTES
    ridxFileOffset := UNIVERSAL_HEADER_BYTES
    rdatBody := [], ridxBody := []
    rdatBodyCRC := [], ridxBodyCRC := []
    rdatNumberOfEntries := 0, ridxNumberOfEntries := 0
    rdatStartTime := none, ridxStartTime := none
    rdatEndTime := 0, ridxEndTime := 0
    maximumEntrySize := UH_MAX_ENTRY_SIZE_NO_ENTRY }

/-- ASCII bytes of "hello" (a 5-character Note body, so strlen + 1 = 6,
not a multiple of 16). -/
def helloBytes : List Nat := [104, 101, 108, 108, 111]

/-- A concrete channel configuration: 1-second blocks, 2-second
segments, no anonymization, no bit shift, and a simple stand-in for the
RED codec size outputs. -/
def cfg0 : TSConfig :=
  { blockInterval := 1000000
    numSecsPerSegment := 2
    rtoApply := false
    recordingTimeOffset := 0
    bitShiftFlag := false
    indexEntryBytes := 45
    blockBytesFn := fun l _ => 100 + l.length
    diffBytesFn := fun l => l.length
    flagsFn := fun d => if d then 1 else 0 }

/-- The channel state right after initialize_mef_channel_data: empty
buffer, zeroed scheduling fields, first block marked discontinuous,
level UUID shared by the three files (generate_UUID order: level, then
metadata / index / data file UUIDs). -/
def ts0 : ChannelState :=
  { buffer := []
    block_len := 0
    block_hdr_time := 0
    block_boundary := 0
    last_chan_timestamp := 0
    discontinuity_flag := true
    sampling_frequency := 1
    start_sample := 0
    data_file_offset := UNIVERSAL_HEADER_BYTES
    inds_file_offset := UNIVERSAL_HEADER_BYTES
    number_of_index_entries := 0
    number_of_samples_cs := 0
    next_segment_start_time := 0
    md2_start_sample := 0
    md2_number_of_samples := 0
    md2_number_of_blocks := 0
    md2_number_of_discontinuities := 0
    md2_maximum_block_bytes := 0
    md2_maximum_block_samples := 0
    md2_maximum_difference_bytes := 0
    md2_maximum_contiguous_blocks := 0
    md2_maximum_contiguous_samples := 0
    md2_maximum_contiguous_block_bytes := 0
    md2_recording_duration := none
    discont_contiguous_blocks := 0
    discont_contiguous_samples := 0
    discont_contiguous_bytes := 0
    meta_start_time := none
    data_start_time := none
    inds_start_time := none
    meta_end_time := none
    data_end_time := none
    inds_end_time := none
    data_number_of_entries := 0
    inds_number_of_entries := 0
    data_maximum_entry_size := 0
    segment_number := 0
    uuid_supply := 4
    data_level_UUID := 0
    data_file_UUID := 3
    inds_level_UUID := 0
    inds_file_UUID := 2
    meta_level_UUID := 0
    meta_file_UUID := 1
    index_entries := []
    data_blocks := []
    closed_segments := [] }

/-- ts0 mid-run: one 1000-sample block already emitted in segment 0 and a
pending segment boundary at time 50. -/
def ts1 : ChannelState :=
  { ts0 with
    block_len := 1000
    start_sample := 1000
    md2_number_of_samples := 1000
    next_segment_start_time := 50
    index_entries :=
      [{ fileOffset := UNIVERSAL_HEADER_BYTES, startTime := 0,
         startSample := 0, numberOfSamples := 1000, blockBytes := 1100,
         maximumSampleValue := 7, minimumSampleValue := -7, flags := 1 }] }

/-- ts1 with two buffered samples and a block in progress (header time 5,
boundary 5, previous sample at 6), and segment rotation off. -/
def ts2 : ChannelState :=
  { ts1 with buffer := [1, 2], block_hdr_time := 5, block_boundary := 5,
             last_chan_timestamp := 6, next_segment_start_time := 0 }

/-- The manifest created for channel ch1 of a fresh session. -/
def mefdF0 : MefdFile := update_mefd_file none "sess" "ch1" "anon"


/-! ## Helper lemmas -/

theorem rollover_buffer (cfg : TSConfig) (s : ChannelState) (t : Int) :
    (rolloverSegment cfg s t).buffer = s.buffer := rfl

theorem rollover_block_len (cfg : TSConfig) (s : ChannelState) (t : Int) :
    (rolloverSegment cfg s t).block_len = s.block_len := rfl

theorem rollover_block_hdr_time (cfg : TSConfig) (s : ChannelState) (t : Int) :
    (rolloverSegment cfg s t).block_hdr_time = s.block_hdr_time := rfl

theorem rollover_block_boundary (cfg : TSConfig) (s : ChannelState) (t : Int) :
    (rolloverSegment cfg s t).block_boundary = s.block_boundary := rfl

theorem rollover_last_ts (cfg : TSConfig) (s : ChannelState) (t : Int) :
    (rolloverSegment cfg s t).last_chan_timestamp = s.last_chan_timestamp := rfl

theorem rollover_disc_flag (cfg : TSConfig) (s : ChannelState) (t : Int) :
    (rolloverSegment cfg s t).discontinuity_flag = s.discontinuity_flag := rfl

theorem rollover_sf (cfg : TSConfig) (s : ChannelState) (t : Int) :
    (rolloverSegment cfg s t).sampling_frequency = s.sampling_frequency := rfl

theorem rollover_total (cfg : TSConfig) (s : ChannelState) (t : Int) :
    total_blocks (rolloverSegment cfg s t) = total_blocks s := by
  simp [total_blocks, rolloverSegment]

theorem check_cases (cfg : TSConfig) (s : ChannelState) (t : Int) :
    checkForNewSegment cfg s t = s ∨
    checkForNewSegment cfg s t = rolloverSegment cfg s t := by
  unfold checkForNewSegment
  split_ifs <;> simp

theorem check_buffer (cfg : TSConfig) (s : ChannelState) (t : Int) :
    (checkForNewSegment cfg s t).buffer = s.buffer := by
  rcases check_cases cfg s t with h | h <;> simp [h, rolloverSegment]

theorem check_block_len (cfg : TSConfig) (s : ChannelState) (t : Int) :
    (checkForNewSegment cfg s t).block_len = s.block_len := by
  rcases check_cases cfg s t with h | h <;> simp [h, rolloverSegment]

theorem check_block_hdr_time (cfg : TSConfig) (s : ChannelState) (t : Int) :
    (checkForNewSegment cfg s t).block_hdr_time = s.block_hdr_time := by
  rcases check_cases cfg s t with h | h <;> simp [h, rolloverSegment]

theorem check_block_boundary (cfg : TSConfig) (s : ChannelState) (t : Int) :
    (checkForNewSegment cfg s t).block_boundary = s.block_boundary := by
  rcases check_cases cfg s t with h | h <;> simp [h, rolloverSegment]

theorem check_last_ts (cfg : TSConfig) (s : ChannelState) (t : Int) :
    (checkForNewSegment cfg s t).last_chan_timestamp = s.last_chan_timestamp := by
  rcases check_cases cfg s t with h | h <;> simp [h, rolloverSegment]

theorem check_disc_flag (cfg : TSConfig) (s : ChannelState) (t : Int) :
    (checkForNewSegment cfg s t).discontinuity_flag = s.discontinuity_flag := by
  rcases check_cases cfg s t with h | h <;> simp [h, rolloverSegment]

theorem check_sf (cfg : TSConfig) (s : ChannelState) (t : Int) :
    (checkForNewSegment cfg s t).sampling_frequency = s.sampling_frequency := by
  rcases check_cases cfg s t with h | h <;> simp [h, rolloverSegment]

theorem check_total (cfg : TSConfig) (s : ChannelState) (t : Int) :
    total_blocks (checkForNewSegment cfg s t) = total_blocks s := by
  rcases check_cases cfg s t with h | h <;> rw [h]
  exact rollover_total cfg s t

theorem pfb_preserves (cfg : TSConfig) (s : ChannelState)
    (raw : List Int) (n bl : Nat) (d : Bool) (t : Int) :
    (process_filled_block cfg s raw n bl d t).buffer = s.buffer ∧
    (process_filled_block cfg s raw n bl d t).block_len = s.block_len ∧
    (process_filled_block cfg s raw n bl d t).block_hdr_time = s.block_hdr_time ∧
    (process_filled_block cfg s raw n bl d t).block_boundary = s.block_boundary ∧
    (process_filled_block cfg s raw n bl d t).last_chan_timestamp = s.last_chan_timestamp ∧
    (process_filled_block cfg s raw n bl d t).discontinuity_flag = s.discontinuity_flag ∧
    (process_filled_block cfg s raw n bl d t).sampling_frequency = s.sampling_frequency := by
  unfold process_filled_block
  split_ifs <;>
    simp [apply_ite ChannelState.buffer, apply_ite ChannelState.block_len,
      apply_ite ChannelState.block_hdr_time, apply_ite ChannelState.block_boundary,
      apply_ite ChannelState.last_chan_timestamp, apply_ite ChannelState.discontinuity_flag,
      apply_ite ChannelState.sampling_frequency,
      check_buffer, check_block_len, check_block_hdr_time, check_block_boundary,
      check_last_ts, check_disc_flag, check_sf]

theorem segEnd_append (a : Int) (l : List IndexEntry) (e : IndexEntry) :
    segEnd a (l ++ [e]) = segEnd a l + e.numberOfSamples := by
  simp [segEnd, List.foldl_append]

theorem chainFromB_append (a : Int) (l : List IndexEntry) (e : IndexEntry)
    (h : chainFromB a l = true) (he : e.startSample = segEnd a l) :
    chainFromB a (l ++ [e]) = true := by
  induction l generalizing a with
  | nil =>
    simp [chainFromB, segEnd] at he ⊢
    exact he
  | cons x xs ih =>
    simp [chainFromB] at h ⊢
    refine ⟨h.1, ih _ h.2 ?_⟩
    simpa [segEnd] using he

theorem rollover_chaininv (cfg : TSConfig) (s : ChannelState) (t : Int)
    (h : ChainInv s) : ChainInv (rolloverSegment cfg s t) := by
  obtain ⟨hc, hs, hcl⟩ := h
  refine ⟨rfl, rfl, ?_⟩
  intro g hg
  simp [rolloverSegment] at hg
  rcases hg with hg | hg
  · exact hcl g hg
  · rw [hg]
    exact hc

theorem check_chaininv (cfg : TSConfig) (s : ChannelState) (t : Int)
    (h : ChainInv s) : ChainInv (checkForNewSegment cfg s t) := by
  rcases check_cases cfg s t with hh | hh <;> rw [hh]
  · exact h
  · exact rollover_chaininv cfg s t h

theorem pfb_guard (cfg : TSConfig) (s : ChannelState)
    (raw : List Int) (n bl : Nat) (d : Bool) (t : Int)
    (h : n = 0 ∨ bl = 0) :
    process_filled_block cfg s raw n bl d t = s := by
  rcases h with h | h <;> simp [process_filled_block, h]

theorem pfb_chaininv (cfg : TSConfig) (s : ChannelState)
    (raw : List Int) (n bl : Nat) (d : Bool) (t : Int)
    (h : ChainInv s) : ChainInv (process_filled_block cfg s raw n bl d t) := by
  by_cases h1 : n = 0
  · rw [pfb_guard cfg s raw n bl d t (Or.inl h1)]; exact h
  by_cases h2 : bl = 0
  · rw [pfb_guard cfg s raw n bl d t (Or.inr h2)]; exact h
  unfold process_filled_block
  rw [if_neg h1, if_neg h2]
  dsimp only
  set s1 := (if 0 < cfg.numSecsPerSegment then
      checkForNewSegment cfg s
        (if cfg.rtoApply = true then t - cfg.recordingTimeOffset else t)
      else s) with hs1def
  have hInv1 : ChainInv s1 := by
    rw [hs1def]
    split
    · exact check_chaininv cfg s _ h
    · exact h
  obtain ⟨hc1, hs1, hcl1⟩ := hInv1
  refine ⟨?_, ?_, ?_⟩
  · simp only [apply_ite ChannelState.index_entries, apply_ite ChannelState.start_sample,
      ite_self]
    exact chainFromB_append _ _ _ hc1 (by simpa using hs1)
  · simp only [apply_ite ChannelState.index_entries, apply_ite ChannelState.start_sample,
      ite_self]
    rw [segEnd_append]
    simp [hs1]
  · simp only [apply_ite ChannelState.closed_segments, ite_self]
    exact hcl1

theorem pfb_total_emit (cfg : TSConfig) (s : ChannelState)
    (raw : List Int) (n bl : Nat) (d : Bool) (t : Int)
    (h1 : ¬ n = 0) (h2 : ¬ bl = 0) :
    total_blocks (process_filled_block cfg s raw n bl d t) = total_blocks s + 1 := by
  unfold process_filled_block
  rw [if_neg h1, if_neg h2]
  dsimp only
  set s1 := (if 0 < cfg.numSecsPerSegment then
      checkForNewSegment cfg s
        (if cfg.rtoApply = true then t - cfg.recordingTimeOffset else t)
      else s) with hs1def
  have ht1 : total_blocks s1 = total_blocks s := by
    rw [hs1def]
    split
    · exact check_total cfg s _
    · rfl
  simp only [total_blocks, apply_ite ChannelState.closed_segments,
    apply_ite ChannelState.data_blocks, ite_self, List.length_append,
    List.length_cons, List.length_nil] at ht1 ⊢
  omega



theorem init_buffer (s : ChannelState) (t : Int) :
    (write_step_init s t).buffer = s.buffer := by
  unfold write_step_init; split <;> rfl

theorem init_block_len (s : ChannelState) (t : Int) :
    (write_step_init s t).block_len = s.block_len := by
  unfold write_step_init; split <;> rfl

theorem init_last_ts (s : ChannelState) (t : Int) :
    (write_step_init s t).last_chan_timestamp = s.last_chan_timestamp := by
  unfold write_step_init; split <;> rfl

theorem init_disc_flag (s : ChannelState) (t : Int) :
    (write_step_init s t).discontinuity_flag = s.discontinuity_flag := by
  unfold write_step_init; split <;> rfl

theorem init_total (s : ChannelState) (t : Int) :
    total_blocks (write_step_init s t) = total_blocks s := by
  unfold write_step_init; split <;> rfl

theorem init_chaininv (s : ChannelState) (t : Int) (h : ChainInv s) :
    ChainInv (write_step_init s t) := by
  unfold write_step_init; split
  · exact h
  · exact h

theorem pfb_end_time (cfg : TSConfig) (s : ChannelState)
    (raw : List Int) (n bl : Nat) (d : Bool) (t : Int)
    (h1 : ¬ n = 0) (h2 : ¬ bl = 0) :
    (process_filled_block cfg s raw n bl d t).meta_end_time =
      some (if cfg.rtoApply then
              endTimeCalc t n s.sampling_frequency - cfg.recordingTimeOffset
            else endTimeCalc t n s.sampling_frequency) ∧
    (process_filled_block cfg s raw n bl d t).data_end_time =
      (process_filled_block cfg s raw n bl d t).meta_end_time ∧
    (process_filled_block cfg s raw n bl d t).inds_end_time =
      (process_filled_block cfg s raw n bl d t).meta_end_time := by
  unfold process_filled_block
  rw [if_neg h1, if_neg h2]
  dsimp only
  set s1 := (if 0 < cfg.numSecsPerSegment then
      checkForNewSegment cfg s
        (if cfg.rtoApply = true then t - cfg.recordingTimeOffset else t)
      else s) with hs1def
  have hsf : s1.sampling_frequency = s.sampling_frequency := by
    rw [hs1def]
    split
    · exact check_sf cfg s _
    · rfl
  refine ⟨?_, ?_, ?_⟩ <;>
    simp [apply_ite ChannelState.meta_end_time, apply_ite ChannelState.data_end_time,
      apply_ite ChannelState.inds_end_time, apply_ite ChannelState.sampling_frequency,
      ite_self, hsf]



theorem step_chaininv (cfg : TSConfig) (s : ChannelState) (t x : Int)
    (h : ChainInv s) : ChainInv (write_step cfg s t x) := by
  unfold write_step
  dsimp only
  have hInv1 : ChainInv (write_step_init s t) := init_chaininv s t h
  split
  · have hInv2 : ChainInv (if 0 < (write_step_init s t).buffer.length then
        process_filled_block cfg (write_step_init s t) (write_step_init s t).buffer
          (write_step_init s t).buffer.length (write_step_init s t).block_len
          (write_step_init s t).discontinuity_flag (write_step_init s t).block_hdr_time
        else write_step_init s t) := by
      split
      · exact pfb_chaininv cfg _ _ _ _ _ _ hInv1
      · exact hInv1
    split
    · exact hInv2
    · exact hInv2
  · exact hInv1

theorem step_total_flush (cfg : TSConfig) (s : ChannelState) (t x : Int)
    (hbl : ¬ s.block_len = 0)
    (hcond : disc_trigger (write_step_init s t) t ∨
             block_trigger cfg (write_step_init s t) t)
    (hbuf : s.buffer ≠ []) :
    total_blocks (write_step cfg s t x) = total_blocks s + 1 := by
  unfold write_step
  dsimp only
  rw [if_pos hcond]
  have hlen : 0 < (write_step_init s t).buffer.length := by
    rw [init_buffer]
    exact List.length_pos.mpr hbuf
  rw [if_pos hlen]
  have hpfb : total_blocks (process_filled_block cfg (write_step_init s t)
      (write_step_init s t).buffer (write_step_init s t).buffer.length
      (write_step_init s t).block_len (write_step_init s t).discontinuity_flag
      (write_step_init s t).block_hdr_time) = total_blocks (write_step_init s t) + 1 := by
    refine pfb_total_emit cfg _ _ _ _ _ _ ?_ ?_
    · omega
    · rw [init_block_len]; exact hbl
  split
  · show total_blocks _ = _
    calc total_blocks _ = total_blocks (write_step_init s t) + 1 := hpfb
    _ = total_blocks s + 1 := by rw [init_total]
  · show total_blocks _ = _
    calc total_blocks _ = total_blocks (write_step_init s t) + 1 := hpfb
    _ = total_blocks s + 1 := by rw [init_total]

theorem step_total_noflush (cfg : TSConfig) (s : ChannelState) (t x : Int)
    (h : ¬ ((disc_trigger (write_step_init s t) t ∨
             block_trigger cfg (write_step_init s t) t) ∧ s.buffer ≠ [])) :
    total_blocks (write_step cfg s t x) = total_blocks s := by
  unfold write_step
  dsimp only
  by_cases hcond : disc_trigger (write_step_init s t) t ∨
      block_trigger cfg (write_step_init s t) t
  · have hbuf : s.buffer = [] := by
      by_contra hne
      exact h ⟨hcond, hne⟩
    rw [if_pos hcond]
    have hlen : ¬ 0 < (write_step_init s t).buffer.length := by
      rw [init_buffer, hbuf]
      simp
    rw [if_neg hlen]
    split
    · exact init_total s t
    · exact init_total s t
  · rw [if_neg hcond]
    exact init_total s t



theorem flush_fixed (cfg : TSConfig) (v : ChannelState)
    (h1 : ¬ v.block_len = 0) (h2 : v.buffer = [])
    (h3 : v.discontinuity_flag = true) (h4 : v.block_boundary = 0)
    (h5 : v.block_hdr_time = 0) :
    flush_mef_channel cfg v = v := by
  unfold flush_mef_channel
  rw [if_neg h1]
  dsimp only
  rw [h2]
  simp only [List.length_nil, lt_irrefl, if_false]
  cases v
  simp_all

theorem flush_props (cfg : TSConfig) (s : ChannelState)
    (h : ¬ s.block_len = 0) :
    (flush_mef_channel cfg s).block_hdr_time = 0 ∧
    (flush_mef_channel cfg s).block_boundary = 0 ∧
    (flush_mef_channel cfg s).buffer = [] ∧
    (flush_mef_channel cfg s).discontinuity_flag = true ∧
    (flush_mef_channel cfg s).block_len = s.block_len := by
  unfold flush_mef_channel
  rw [if_neg h]
  dsimp only
  refine ⟨rfl, rfl, rfl, rfl, ?_⟩
  split
  · exact (pfb_preserves cfg s _ _ _ _ _).2.1
  · rfl

theorem flush_idem (cfg : TSConfig) (s : ChannelState) :
    flush_mef_channel cfg (flush_mef_channel cfg s) = flush_mef_channel cfg s := by
  by_cases h : s.block_len = 0
  · simp [flush_mef_channel, h]
  · obtain ⟨p1, p2, p3, p4, p5⟩ := flush_props cfg s h
    exact flush_fixed cfg _ (by rw [p5]; exact h) p3 p4 p2 p1

theorem flush_total (cfg : TSConfig) (s : ChannelState) :
    total_blocks (flush_mef_channel cfg s) ≤ total_blocks s + 1 := by
  by_cases h : s.block_len = 0
  · simp [flush_mef_channel, h]
  · unfold flush_mef_channel
    rw [if_neg h]
    dsimp only
    split
    · rename_i hl
      exact le_of_eq (pfb_total_emit cfg s s.buffer s.buffer.length s.block_len
        s.discontinuity_flag s.block_hdr_time (by omega) h)
    · exact Nat.le_succ (total_blocks s)

theorem flush_chaininv (cfg : TSConfig) (s : ChannelState)
    (h : ChainInv s) : ChainInv (flush_mef_channel cfg s) := by
  unfold flush_mef_channel
  split
  · exact h
  · dsimp only
    split
    · exact pfb_chaininv cfg _ _ _ _ _ _ h
    · exact h

theorem foldl_chaininv (cfg : TSConfig) (l : List (Int × Int)) :
    ∀ s : ChannelState, ChainInv s →
      ChainInv (l.foldl (fun st p => write_step cfg st p.1 p.2) s) := by
  induction l with
  | nil => intro s h; exact h
  | cons p rest ih =>
    intro s h
    exact ih _ (step_chaininv cfg s p.1 p.2 h)

theorem wmcd_chaininv (cfg : TSConfig) (s : ChannelState)
    (ps : List (Int × Int)) (sb F : ℚ) (h : ChainInv s) :
    ChainInv (write_mef_channel_data cfg s ps sb F) := by
  unfold write_mef_channel_data
  dsimp only
  refine foldl_chaininv cfg ps _ ?_
  exact h

theorem runOps_chaininv (cfg : TSConfig) (ops : List ChannelOp) :
    ∀ s : ChannelState, ChainInv s → ChainInv (runOps cfg s ops) := by
  induction ops with
  | nil => intro s h; exact h
  | cons op rest ih =>
    intro s h
    cases op with
    | write ps sb F => exact ih _ (wmcd_chaininv cfg s ps sb F h)
    | flush => exact ih _ (flush_chaininv cfg s h)




theorem step_zero_hdr (cfg : TSConfig) (s : ChannelState) (x : Int)
    (h : s.block_hdr_time = 0) : (write_step cfg s 0 x).block_hdr_time = 0 := by
  unfold write_step
  dsimp only
  split
  · split
    · rfl
    · rfl
  · show (write_step_init s 0).block_hdr_time = 0
    unfold write_step_init
    rw [if_pos h]

theorem foldl_zero_hdr (cfg : TSConfig) (xs : List Int) :
    ∀ s : ChannelState, s.block_hdr_time = 0 →
      ((xs.map fun x => ((0 : Int), x)).foldl
        (fun st p => write_step cfg st p.1 p.2) s).block_hdr_time = 0 := by
  induction xs with
  | nil => intro s h; exact h
  | cons y ys ih =>
    intro s h
    simp only [List.map_cons, List.foldl_cons]
    exact ih _ (step_zero_hdr cfg s y h)

/-- Claim C8: for every accepted annotation record, the pad length equals
(-body_len) mod 16 (16 - body_len mod 16, taken as 0 on a multiple of
16), and the record header's bytes field written by write_annotation
equals body_len + pad = 16 * ceil(body_len / 16). -/
theorem c8_pad_alignment :
    (∀ n : Nat, pad_bytes n = (16 - n % 16) % 16 ∧
       (pad_bytes n : Int) = (-(n : Int)) % 16 ∧
       n + pad_bytes n = 16 * ((n + 15) / 16)) ∧
    (∀ (rtoApply : Bool) (rto : Int) (st : AnnState) (t : Int)
       (type : String) (body : List Nat),
       type = "Note" ∨ type = "Seiz" ∨ type = "Curs" ∨ type = "Epoc" →
       (writeAnn rtoApply rto st t type (some body)).rdatBody =
         st.rdatBody ++
           [Chunk.recHeader
              { typeString := type, versionMajor := 1, versionMinor := 0,
                encryption := 0, bytes := annHeaderBytes type body,
                time := if rtoApply then t - rto else t }
              (annRecCRCBase type
                { typeString := type, versionMajor := 1, versionMinor := 0,
                  encryption := 0, bytes := annHeaderBytes type body,
                  time := if rtoApply then t - rto else t } body ++
               (if 0 < pad_bytes (annBodyLen type body) then
                  [RChunk.raw (List.replicate (pad_bytes (annBodyLen type body)) PAD_CHAR)]
                else []))] ++
           annBodyChunks type body ++
           (if 0 < pad_bytes (annBodyLen type body) then
              [Chunk.raw (List.replicate (pad_bytes (annBodyLen type body)) PAD_CHAR)]
            else []) ∧
       annHeaderBytes type body =
         annBodyLen type body + pad_bytes (annBodyLen type body) ∧
       annHeaderBytes type body = 16 * ((annBodyLen type body + 15) / 16)) := by
  constructor
  · intro n
    refine ⟨?_, ?_, ?_⟩ <;> (unfold pad_bytes; split <;> omega)
  · intro rtoApply rto st t type body hk
    have harith : annHeaderBytes type body =
        16 * ((annBodyLen type body + 15) / 16) := by
      unfold annHeaderBytes pad_bytes
      split <;> omega
    rcases hk with rfl | rfl | rfl | rfl <;>
      exact ⟨by simp [writeAnn, annBodyChunks, annBodyLen], rfl, harith⟩



/-- Claim C4 evidence: the kind guard of write_annotation never fires, so
an unrecognized kind string (here "Foo") is NOT ignored - the call
appends a record header and an index entry, advances both file offsets,
folds bytes into both body CRCs and bumps both entry counts. -/
theorem c4_unknown_kind_not_ignored :
    writeAnn false 0 annSt0 5 "Foo" (some [1, 2, 3]) ≠ annSt0 ∧
    (writeAnn false 0 annSt0 5 "Foo" (some [1, 2, 3])).rdatFileOffset =
      annSt0.rdatFileOffset + RECORD_HEADER_BYTES ∧
    (writeAnn false 0 annSt0 5 "Foo" (some [1, 2, 3])).ridxFileOffset =
      annSt0.ridxFileOffset + RECORD_INDEX_BYTES ∧
    (writeAnn false 0 annSt0 5 "Foo" (some [1, 2, 3])).rdatNumberOfEntries =
      annSt0.rdatNumberOfEntries + 1 ∧
    (writeAnn false 0 annSt0 5 "Foo" (some [1, 2, 3])).ridxNumberOfEntries =
      annSt0.ridxNumberOfEntries + 1 ∧
    (writeAnn false 0 annSt0 5 "Foo" (some [1, 2, 3])).rdatBodyCRC ≠
      annSt0.rdatBodyCRC := by
  decide

/-- Claim C7: registering a channel name already listed in the session
manifest returns without modification, leaving the manifest
byte-identical; a name not yet present is appended with
number_of_entries, body CRC and header CRC updated. -/
theorem c7_manifest_idempotent (f : MefdFile) (sess chan anon : String)
    (hwf : f.header.numberOfEntries = f.entries.length) :
    ((chan ++ "." ++ TIMD_SUFFIX) ∈ f.entries →
       update_mefd_file (some f) sess chan anon = f) ∧
    ((chan ++ "." ++ TIMD_SUFFIX) ∉ f.entries →
       update_mefd_file (some f) sess chan anon =
         { header := { f.header with
             numberOfEntries := f.header.numberOfEntries + 1,
             bodyCRC := f.header.bodyCRC ++ [chan ++ "." ++ TIMD_SUFFIX] },
           headerCRC := { f.header with
             numberOfEntries := f.header.numberOfEntries + 1,
             bodyCRC := f.header.bodyCRC ++ [chan ++ "." ++ TIMD_SUFFIX] },
           entries := f.entries ++ [chan ++ "." ++ TIMD_SUFFIX] }) := by
  constructor
  · intro hm
    unfold update_mefd_file
    dsimp only
    rw [if_pos]
    rw [hwf, List.take_length]
    exact hm
  · intro hm
    unfold update_mefd_file
    dsimp only
    rw [if_neg]
    rw [hwf, List.take_length]
    exact hm

/-- Claim C3: in the 2021 revision, process_filled_block sets end_time
for all three files to block_hdr_time plus the rounded value of
(N / sampling_frequency) * 1e6 (offset-adjusted when anonymization is
active), and that computation agrees with the rounded-value formula of
the specification. -/
theorem c3_end_time_formula (cfg : TSConfig) (s : ChannelState)
    (raw : List Int) (n bl : Nat) (d : Bool) (t : Int)
    (h1 : ¬ n = 0) (h2 : ¬ bl = 0) (hF : 0 < s.sampling_frequency) :
    (process_filled_block cfg s raw n bl d t).meta_end_time =
      some (if cfg.rtoApply then
              endTimeCalc t n s.sampling_frequency - cfg.recordingTimeOffset
            else endTimeCalc t n s.sampling_frequency) ∧
    (process_filled_block cfg s raw n bl d t).data_end_time =
      (process_filled_block cfg s raw n bl d t).meta_end_time ∧
    (process_filled_block cfg s raw n bl d t).inds_end_time =
      (process_filled_block cfg s raw n bl d t).meta_end_time ∧
    endTimeCalc t n s.sampling_frequency = endTimeSpec t n s.sampling_frequency := by
  obtain ⟨e1, e2, e3⟩ := pfb_end_time cfg s raw n bl d t h1 h2
  refine ⟨e1, e2, e3, ?_⟩
  unfold endTimeCalc endTimeSpec si8OfSf8
  have hnn : (0 : ℚ) ≤ (n : ℚ) / s.sampling_frequency :=
    div_nonneg (Nat.cast_nonneg n) hF.le
  have hq : (0 : ℚ) ≤ (n : ℚ) / s.sampling_frequency * 1000000 + 1 / 2 := by
    have := mul_nonneg hnn (by norm_num : (0 : ℚ) ≤ 1000000)
    linarith
  rw [if_pos hq, round_eq]

/-- Claim C3 counterexample: the 2020 revision
(src/write_mef_channel.c line 688) uses N + 1 sample periods; at
N = 1000 samples, 1000 Hz, block_hdr_time = 0 it writes end_time
1001000, not the 1000000 the claim states. -/
theorem c3_counterexample :
    endTimeCalcC 0 1000 1000 = 1001000 ∧
    endTimeSpec 0 1000 1000 = 1000000 ∧
    endTimeCalcC 0 1000 1000 ≠ endTimeSpec 0 1000 1000 := by
  refine ⟨?_, ?_, ?_⟩ <;>
    norm_num [endTimeCalcC, endTimeSpec, si8OfSf8, round_eq]



/-- Claim C2 (amended): when check_for_new_segment rolls a segment over,
the three new files share one level UUID, but that level UUID is freshly
generated at rollover (so it differs from every UUID handed out
earlier, in particular from the previous segment's level UUID); each
file also receives a fresh file UUID, and the three file UUIDs are
pairwise distinct. -/
theorem c2_rollover_uuids (cfg : TSConfig) (s : ChannelState) (t : Int)
    (h1 : s.next_segment_start_time ≠ 0)
    (h2 : cfg.rtoApply = true → ¬ s.next_segment_start_time < t)
    (h3 : cfg.rtoApply = false → ¬ t < s.next_segment_start_time) :
    (checkForNewSegment cfg s t).data_level_UUID = s.uuid_supply ∧
    (checkForNewSegment cfg s t).inds_level_UUID = s.uuid_supply ∧
    (checkForNewSegment cfg s t).meta_level_UUID = s.uuid_supply ∧
    (checkForNewSegment cfg s t).data_file_UUID = s.uuid_supply + 1 ∧
    (checkForNewSegment cfg s t).inds_file_UUID = s.uuid_supply + 2 ∧
    (checkForNewSegment cfg s t).meta_file_UUID = s.uuid_supply + 3 ∧
    ((checkForNewSegment cfg s t).data_file_UUID ≠
       (checkForNewSegment cfg s t).inds_file_UUID ∧
     (checkForNewSegment cfg s t).data_file_UUID ≠
       (checkForNewSegment cfg s t).meta_file_UUID ∧
     (checkForNewSegment cfg s t).inds_file_UUID ≠
       (checkForNewSegment cfg s t).meta_file_UUID) ∧
    (s.data_level_UUID < s.uuid_supply →
       (checkForNewSegment cfg s t).data_level_UUID ≠ s.data_level_UUID) := by
  have hro : checkForNewSegment cfg s t = rolloverSegment cfg s t := by
    unfold checkForNewSegment
    rw [if_neg h1]
    by_cases hr : cfg.rtoApply = true
    · rw [if_pos hr, if_neg (h2 hr)]
    · have hf : cfg.rtoApply = false := by
        revert hr; cases cfg.rtoApply <;> simp
      rw [if_neg hr, if_neg (h3 hf)]
  rw [hro]
  refine ⟨rfl, rfl, rfl, rfl, rfl, rfl, ⟨by simp [rolloverSegment],
    by simp [rolloverSegment], by simp [rolloverSegment]⟩, ?_⟩
  intro hlt
  show s.uuid_supply ≠ s.data_level_UUID
  omega

/-- Claim C2 counterexample: after a concrete rollover the three new
files carry level UUID 4 (freshly generated), not the previous
segment's level UUID 0 - the files do not keep the old level UUID. -/
theorem c2_counterexample :
    ts1.data_level_UUID = 0 ∧ ts1.inds_level_UUID = 0 ∧
    ts1.meta_level_UUID = 0 ∧
    (checkForNewSegment cfg0 ts1 60).data_level_UUID = 4 ∧
    (checkForNewSegment cfg0 ts1 60).inds_level_UUID = 4 ∧
    (checkForNewSegment cfg0 ts1 60).meta_level_UUID = 4 ∧
    (checkForNewSegment cfg0 ts1 60).data_level_UUID ≠ ts1.data_level_UUID := by
  decide

/-- Claim C9: in the 2021 revision, a Note record whose body length is
not a multiple of 16 is padded with tilde (0x7E = 126) bytes, and
exactly those tilde bytes are folded into the record_CRC and into the
.rdat body CRC, making the on-disk record bytes a function of the
input. -/
theorem c9_pad_tilde_crcs (rtoApply : Bool) (rto : Int) (st : AnnState)
    (t : Int) (body : List Nat)
    (h : (body.length + 1) % 16 ≠ 0) :
    0 < pad_bytes (body.length + 1) ∧
    PAD_CHAR = 126 ∧ PAD_CHAR ≠ 0 ∧
    (writeAnn rtoApply rto st t "Note" (some body)).rdatBody =
      st.rdatBody ++
        [Chunk.recHeader
           { typeString := "Note", versionMajor := 1, versionMinor := 0,
             encryption := 0, bytes := annHeaderBytes "Note" body,
             time := if rtoApply then t - rto else t }
           [RChunk.hdrTail
              { typeString := "Note", versionMajor := 1, versionMinor := 0,
                encryption := 0, bytes := annHeaderBytes "Note" body,
                time := if rtoApply then t - rto else t },
            RChunk.raw (body ++ [0]),
            RChunk.raw (List.replicate (pad_bytes (body.length + 1)) PAD_CHAR)],
         Chunk.raw (body ++ [0]),
         Chunk.raw (List.replicate (pad_bytes (body.length + 1)) PAD_CHAR)] ∧
    (writeAnn rtoApply rto st t "Note" (some body)).rdatBodyCRC =
      st.rdatBodyCRC ++
        [Chunk.recHeader
           { typeString := "Note", versionMajor := 1, versionMinor := 0,
             encryption := 0, bytes := annHeaderBytes "Note" body,
             time := if rtoApply then t - rto else t }
           [RChunk.hdrTail
              { typeString := "Note", versionMajor := 1, versionMinor := 0,
                encryption := 0, bytes := annHeaderBytes "Note" body,
                time := if rtoApply then t - rto else t },
            RChunk.raw (body ++ [0]),
            RChunk.raw (List.replicate (pad_bytes (body.length + 1)) PAD_CHAR)],
         Chunk.raw (body ++ [0]),
         Chunk.raw (List.replicate (pad_bytes (body.length + 1)) PAD_CHAR)] := by
  have hp : 0 < pad_bytes (body.length + 1) := by
    unfold pad_bytes
    split <;> omega
  refine ⟨hp, rfl, by decide, ?_, ?_⟩ <;>
    simp [writeAnn, annBodyChunks, annRecCRCBase, annBodyLen, hp]

/-- Claim C9 counterexample: the 2020 revision writes the tilde pad
bytes to .rdat but never folds them into the .rdat body CRC (it updates
that CRC only with the record header, lines 1469-1474 of
src/write_mef_channel.c); shown here on Note("hello"), whose 10 pad
bytes appear in the file body but not in the body-CRC absorption. -/
theorem c9_counterexample :
    Chunk.raw (List.replicate 10 126) ∈
      (writeAnnC 1000 false 0 annSt0 0 "Note" 0 helloBytes).rdatBody ∧
    Chunk.raw (List.replicate 10 126) ∉
      (writeAnnC 1000 false 0 annSt0 0 "Note" 0 helloBytes).rdatBodyCRC := by
  decide



/-- Claim C1: in the per-sample loop, the buffered samples are handed to
process_filled_block (emitting exactly one block) before sample i is
appended if and only if the discontinuity condition or the
block-schedule condition holds and the buffer is non-empty; when the
trigger was the discontinuity condition the next block's flag is set and
block_boundary becomes packet_times[i], otherwise the flag is cleared
and block_boundary advances by exactly block_interval. -/
theorem c1_flush_iff (cfg : TSConfig) (s : ChannelState) (t x : Int)
    (hbl : ¬ s.block_len = 0) :
    (total_blocks (write_step cfg s t x) = total_blocks s + 1 ↔
       ((disc_trigger (write_step_init s t) t ∨
         block_trigger cfg (write_step_init s t) t) ∧ s.buffer ≠ [])) ∧
    ((disc_trigger (write_step_init s t) t ∨
      block_trigger cfg (write_step_init s t) t) →
       (disc_trigger (write_step_init s t) t →
          (write_step cfg s t x).discontinuity_flag = true ∧
          (write_step cfg s t x).block_boundary = t) ∧
       (¬ disc_trigger (write_step_init s t) t →
          (write_step cfg s t x).discontinuity_flag = false ∧
          (write_step cfg s t x).block_boundary =
            (write_step_init s t).block_boundary + cfg.blockInterval) ∧
       (write_step cfg s t x).block_hdr_time = t ∧
       (write_step cfg s t x).buffer = [x]) := by
  constructor
  · constructor
    · intro heq
      by_contra hn
      rw [step_total_noflush cfg s t x hn] at heq
      omega
    · rintro ⟨hc, hb⟩
      exact step_total_flush cfg s t x hbl hc hb
  · intro hcond
    refine ⟨?_, ?_, ?_, ?_⟩
    · intro hd
      unfold write_step
      dsimp only
      rw [if_pos hcond, if_pos hd]
      exact ⟨rfl, rfl⟩
    · intro hd
      unfold write_step
      dsimp only
      rw [if_pos hcond, if_neg hd]
      exact ⟨rfl, rfl⟩
    · unfold write_step
      dsimp only
      rw [if_pos hcond]
    · unfold write_step
      dsimp only
      rw [if_pos hcond]

theorem c1_flush_iff_witness :
    ¬ ts2.block_len = 0 ∧
    total_blocks (write_step cfg0 ts2 2000000 9) = total_blocks ts2 + 1 :=
  ⟨by decide,
   (c1_flush_iff cfg0 ts2 2000000 9 (by decide)).1.mpr
     ⟨Or.inl (by decide), by decide⟩⟩

/-- Claim C5: from any state satisfying the start_sample chain
invariant, any sequence of write/flush operations leaves every segment's
index entries chaining from 0 (each entry's start_sample is the running
sum of the previous entries' number_of_samples), with the channel
state's start_sample equal to the running total; and the 2021-revision
segment rollover resets start_sample to 0 so the chain restarts in the
new segment. -/
theorem c5_index_chain (cfg : TSConfig) (s : ChannelState)
    (ops : List ChannelOp) (h : ChainInv s) :
    (chainFromB 0 (runOps cfg s ops).index_entries = true ∧
     (runOps cfg s ops).start_sample = segEnd 0 (runOps cfg s ops).index_entries ∧
     ∀ g ∈ (runOps cfg s ops).closed_segments, chainFromB 0 g.entries = true) ∧
    (∀ (s2 : ChannelState) (t2 : Int),
       (rolloverSegment cfg s2 t2).start_sample = 0) := by
  exact ⟨runOps_chaininv cfg ops s h, fun s2 t2 => rfl⟩

theorem c5_index_chain_witness :
    chainFromB 0 (runOps cfg0 ts0
      [ChannelOp.write [(10, 5), (1000010, 6)] 1 1, ChannelOp.flush]).index_entries
      = true :=
  (c5_index_chain cfg0 ts0
    [ChannelOp.write [(10, 5), (1000010, 6)] 1 1, ChannelOp.flush]
    ⟨rfl, rfl, fun g hg => by simp [ts0] at hg⟩).1.1

/-- Claim C5 counterexample: in the 2020 revision
(src/write_mef_channel.c check_for_new_segment), segment rollover does
NOT reset the channel state's start_sample; after a concrete rollover it
is still 1000, so the next segment's first index entry would not start
at 0. -/
theorem c5_counterexample :
    (checkForNewSegmentC cfg0 ts1 60).start_sample = 1000 ∧
    ¬ (checkForNewSegmentC cfg0 ts1 60).start_sample = 0 := by
  decide

/-- Claim C6: calling flush_mef_channel twice in succession produces at
most one block; the second call is a no-op on the entire channel state
(in particular it emits nothing and changes no on-disk state), and when
data has been given to the channel (block_len != 0, the function's own
no-data guard) the first call empties the buffer, emitting the buffered
samples as exactly one block when there are any. -/
theorem c6_flush_twice (cfg : TSConfig) (s : ChannelState) :
    flush_mef_channel cfg (flush_mef_channel cfg s) = flush_mef_channel cfg s ∧
    total_blocks (flush_mef_channel cfg s) ≤ total_blocks s + 1 ∧
    total_blocks (flush_mef_channel cfg (flush_mef_channel cfg s)) =
      total_blocks (flush_mef_channel cfg s) ∧
    (¬ s.block_len = 0 → (flush_mef_channel cfg s).buffer = []) ∧
    (¬ s.block_len = 0 → s.buffer ≠ [] →
       total_blocks (flush_mef_channel cfg s) = total_blocks s + 1) := by
  refine ⟨flush_idem cfg s, flush_total cfg s, by rw [flush_idem cfg s],
    fun h => (flush_props cfg s h).2.2.1, ?_⟩
  intro h hb
  unfold flush_mef_channel
  rw [if_neg h]
  dsimp only
  rw [if_pos (List.length_pos.mpr hb)]
  exact pfb_total_emit cfg s s.buffer s.buffer.length s.block_len
    s.discontinuity_flag s.block_hdr_time
    (fun h0 => hb (List.length_eq_zero.mp h0)) h

theorem c6_flush_twice_witness :
    flush_mef_channel cfg0 (flush_mef_channel cfg0 ts2) =
      flush_mef_channel cfg0 ts2 ∧
    (flush_mef_channel cfg0 ts2).buffer = [] ∧
    total_blocks (flush_mef_channel cfg0 ts2) = total_blocks ts2 + 1 :=
  ⟨(c6_flush_twice cfg0 ts2).1, (c6_flush_twice cfg0 ts2).2.2.2.1 (by decide),
   (c6_flush_twice cfg0 ts2).2.2.2.2 (by decide) (by decide)⟩

/-- Claim C10: block_hdr_time == 0 is the writer's "no block in
progress" sentinel: the per-sample loop re-seeds block_hdr_time and
block_boundary from the current packet exactly when block_hdr_time is 0,
flush_mef_channel resets both to 0, and on a stream whose packet
timestamps are all 0 the first-block initialization re-triggers on every
sample (block_hdr_time never leaves 0), so a legitimate epoch-0
timestamp is indistinguishable from the unset sentinel. -/
theorem c10_zero_time_sentinel (cfg : TSConfig) :
    (∀ (s : ChannelState) (t : Int), s.block_hdr_time = 0 →
       write_step_init s t =
         { s with block_hdr_time := t, block_boundary := t }) ∧
    (∀ (s : ChannelState) (t : Int), ¬ s.block_hdr_time = 0 →
       write_step_init s t = s) ∧
    (∀ s : ChannelState, ¬ s.block_len = 0 →
       (flush_mef_channel cfg s).block_hdr_time = 0 ∧
       (flush_mef_channel cfg s).block_boundary = 0) ∧
    (∀ (s : ChannelState) (x : Int), s.block_hdr_time = 0 →
       (write_step cfg s 0 x).block_hdr_time = 0) ∧
    (∀ (s : ChannelState) (xs : List Int) (sb F : ℚ), s.block_hdr_time = 0 →
       (write_mef_channel_data cfg s (xs.map fun x => ((0 : Int), x))
          sb F).block_hdr_time = 0) := by
  refine ⟨?_, ?_, ?_, ?_, ?_⟩
  · intro s t h
    unfold write_step_init
    rw [if_pos h]
  · intro s t h
    unfold write_step_init
    rw [if_neg h]
  · intro s h
    obtain ⟨p1, p2, _⟩ := flush_props cfg s h
    exact ⟨p1, p2⟩
  · exact fun s x h => step_zero_hdr cfg s x h
  · intro s xs sb F h
    unfold write_mef_channel_data
    dsimp only
    exact foldl_zero_hdr cfg xs _ h

theorem c10_zero_time_sentinel_witness :
    (write_step cfg0 ts0 0 7).block_hdr_time = 0 ∧
    (flush_mef_channel cfg0 ts1).block_boundary = 0 :=
  ⟨(c10_zero_time_sentinel cfg0).2.2.2.1 ts0 7 rfl,
   ((c10_zero_time_sentinel cfg0).2.2.1 ts1 (by decide)).2⟩



theorem c8_pad_alignment_witness :
    6 + pad_bytes 6 = 16 * ((6 + 15) / 16) ∧
    annHeaderBytes "Note" helloBytes =
      16 * ((annBodyLen "Note" helloBytes + 15) / 16) :=
  ⟨(c8_pad_alignment.1 6).2.2,
   (c8_pad_alignment.2 false 0 annSt0 0 "Note" helloBytes (Or.inl rfl)).2.2⟩

theorem c7_manifest_idempotent_witness :
    update_mefd_file (some mefdF0) "sess" "ch1" "anon" = mefdF0 :=
  (c7_manifest_idempotent mefdF0 "sess" "ch1" "anon" (by decide)).1 (by decide)

theorem c3_end_time_formula_witness :
    endTimeCalc 0 1 ts0.sampling_frequency =
      endTimeSpec 0 1 ts0.sampling_frequency :=
  (c3_end_time_formula cfg0 ts0 [5] 1 1 true 0 (by decide) (by decide)
    (by decide)).2.2.2

theorem c2_rollover_uuids_witness :
    (checkForNewSegment cfg0 ts1 60).data_level_UUID = ts1.uuid_supply :=
  (c2_rollover_uuids cfg0 ts1 60 (by decide) (by decide) (by decide)).1

theorem c9_pad_tilde_crcs_witness :
    (helloBytes.length + 1) % 16 ≠ 0 ∧ 0 < pad_bytes (helloBytes.length + 1) :=
  ⟨by decide, (c9_pad_tilde_crcs false 0 annSt0 0 helloBytes (by decide)).1⟩


end MefWriter
